import Mathlib

/-!
Shallow embedding of `packages/core/src/nodes.rs` (dioxus virtual-node layer).

Modelling conventions:
* The bump arena and all `Cell`/`RefCell` memory are made explicit in a `Store`
  threaded through every constructor.  References (`&'src VElement`, raw
  pointers, cell addresses) are `Nat` indices into the corresponding store list.
* `Cell<RealDomNode>` values are modelled by an address into `Store.cells`, so
  that cell identity (which writes are observable through which handle) is
  explicit.  Rust's `Cell::clone` produces a fresh cell holding a copy of the
  value; `VText.clone` below models exactly that.
* Arena (`bumpalo::Bump`) allocations are counted in `Store.bumpAllocs`; only
  the calls that the source performs on the bump (`alloc` / `alloc_with`)
  increment it.  `Cell::new` and `Rc::new` are not arena allocations.
* The type-erased component machinery is defunctionalized: a concrete props
  type is a `PropsTy` (identity plus its `CAN_BE_MEMOIZED` flag), a render
  function `FC<P>` is an `FC` (address plus its props type), an erased props
  pointer is an index into `Store.props`, and the memoization comparator
  closure is the record of its captures (`ComparatorClosure`) together with an
  evaluator `ComparatorClosure.run`.  Running the comparator returns
  `Option Bool`: `none` models the undefined behaviour of reinterpreting an
  erased pointer at the wrong concrete type (or dereferencing a dangling one),
  `some b` a defined run returning `b`.
-/

namespace DioxusNodes

/-- Modelled from the spec: `RealDomNode` and `RealDomNode::empty()` live in
`virtual_dom.rs`, which is not under `src/`; the spec only requires an "empty"
sentinel value for a physical-node handle, plus ordinary non-empty handles. -/
inductive RealDomNode where
  | empty : RealDomNode
  | node : Nat → RealDomNode
deriving DecidableEq

/-- `ScopeIdx` is an external identifier type (from `innerlude`); modelled as `Nat`. -/
def ScopeIdx := Nat

instance : DecidableEq ScopeIdx := fun a b => Nat.decEq a b

/-- `NodeKey<'a>(pub Option<&'a str>)` — the key for keyed children. -/
structure NodeKey where
  val : Option String
deriving DecidableEq

/-- `NodeKey::NONE`: the default, lack of a key. -/
def NodeKey.NONE : NodeKey := ⟨none⟩

/-- `NodeKey::is_none`: is this key `NodeKey::NONE`?  (derived `PartialEq`). -/
def NodeKey.is_none (k : NodeKey) : Bool := decide (k = NodeKey.NONE)

/-- `NodeKey::is_some`: is this key not `NodeKey::NONE`? -/
def NodeKey.is_some (k : NodeKey) : Bool := ! k.is_none

/-- `NodeKey::new(key)`. -/
def NodeKey.new (key : String) : NodeKey := ⟨some key⟩

/-- `impl Default for NodeKey`: `NodeKey::NONE`. -/
def NodeKey.default : NodeKey := NodeKey.NONE

/-- `Attribute<'a> { name: &'static str, value: &'a str }`. -/
structure Attribute where
  name : String
  value : String
deriving DecidableEq

/-- `Attribute::is_volatile`: `match self.name { "value" | "checked" | "selected" => true, _ => false }`. -/
def Attribute.is_volatile (a : Attribute) : Bool :=
  match a.name with
  | "value" => true
  | "checked" => true
  | "selected" => true
  | _ => false

/-- `Listener<'bump>`: event tag, owning scope, listener id, erased callback.
The callback closure is external to this layer; it is modelled by an opaque
identifier. -/
structure Listener where
  event : String
  scope : ScopeIdx
  id : Nat
  callback : Nat
deriving DecidableEq

/-- `VText<'src> { text: &'src str, dom_id: Cell<RealDomNode> }`.
`dom_id` is the address of this value's cell in `Store.cells`. -/
structure VText where
  text : String
  dom_id : Nat
deriving DecidableEq

/-- `VNode<'src>`: the tagged union.  `Element`, `Fragment` and `Component`
hold a reference (store index) to their arena-allocated payload; `Text` holds
its payload by value; `Suspended` has no payload. -/
inductive VNode where
  | Element : Nat → VNode
  | Text : VText → VNode
  | Fragment : Nat → VNode
  | Suspended : VNode
  | Component : Nat → VNode
deriving DecidableEq

/-- `VElement<'a>`.  `ns` is the source's `namespace` field (a Lean keyword);
`dom_id` is the address of the element's `Cell<RealDomNode>`. -/
structure VElement where
  key : NodeKey
  tag_name : String
  listeners : List Listener
  attributes : List Attribute
  children : List VNode
  ns : Option String
  dom_id : Nat
deriving DecidableEq

/-- `VFragment<'src> { key, children }`. -/
structure VFragment where
  key : NodeKey
  children : List VNode
deriving DecidableEq

/-- A concrete props type `P: Properties`: its identity and its
`Properties::CAN_BE_MEMOIZED` associated constant (the trait itself lives in
`innerlude`, outside this file; the flag is all `nodes.rs` consumes). -/
structure PropsTy where
  tyId : Nat
  CAN_BE_MEMOIZED : Bool
deriving DecidableEq

/-- A concrete render function `FC<P>`: its address (`fcId`, the value taken by
`component as *const ()`) together with the props type `P` fixed by its
signature.  Distinct concrete render functions have distinct addresses. -/
structure FC where
  fcId : Nat
  P : PropsTy
deriving DecidableEq

/-- A props value stored in the arena: its concrete type and its value code.
Value equality of two props of the same concrete type (`PartialEq`) is
modelled by equality of the value codes. -/
structure PropVal where
  ty : PropsTy
  val : Nat
deriving DecidableEq

/-- The captures of the memoization comparator closure built by
`VComponent::new`: `caller_ref` (the new component's render-function address),
and the typed reference `props: &P` (its concrete type and arena address). -/
structure ComparatorClosure where
  caller_ref : Nat
  P : PropsTy
  props : Nat
deriving DecidableEq

/-- The captures of the render-invocation shim built by `create_closure`:
the concrete render function and the erased props pointer.  Invoking it needs
the external `Scope` runtime and is outside this layer's claims. -/
structure CallerClosure where
  component : FC
  raw_props : Nat
deriving DecidableEq

/-- `VComponent<'src>`.  `mounted_root` is a `Cell<RealDomNode>` address into
`Store.cells`; `ass_scope` is a `RefCell<Option<ScopeIdx>>` address into
`Store.scopeCells`; `raw_props` is the erased `*const ()` props pointer
(an index into `Store.props`); `user_fc` is the render function's address. -/
structure VComponent where
  key : NodeKey
  mounted_root : Nat
  ass_scope : Nat
  caller : CallerClosure
  children : List VNode
  comparator : Option ComparatorClosure
  raw_props : Nat
  user_fc : Nat
deriving DecidableEq

/-- The explicit memory of one render pass: the bump arena's contents
(`elements`, `fragments`, `components`, `props`, with `bumpAllocs` counting
the bump allocations performed), and the mutable-cell memory (`cells` for
`Cell<RealDomNode>`, `scopeCells` for `RefCell<Option<ScopeIdx>>`). -/
structure Store where
  cells : List RealDomNode
  scopeCells : List (Option ScopeIdx)
  elements : List VElement
  fragments : List VFragment
  components : List VComponent
  props : List PropVal
  bumpAllocs : Nat
deriving DecidableEq

/-- Bring a fresh `Cell<RealDomNode>` into existence (`Cell::new(v)`); this is
cell memory, not an arena allocation.  Returns the new cell's address. -/
def allocCell (s : Store) (v : RealDomNode) : Nat × Store :=
  (s.cells.length, { s with cells := s.cells ++ [v] })

/-- `Cell::set` on the cell at address `i`. -/
def cellWrite (s : Store) (i : Nat) (v : RealDomNode) : Store :=
  { s with cells := s.cells.set i v }

/-- `Cell::get` on the cell at address `i` (`none` if the address is dangling). -/
def cellRead (s : Store) (i : Nat) : Option RealDomNode :=
  s.cells[i]?

/-- Bring a fresh `RefCell<Option<ScopeIdx>>` into existence (`RefCell::new(v)`). -/
def allocScopeCell (s : Store) (v : Option ScopeIdx) : Nat × Store :=
  (s.scopeCells.length, { s with scopeCells := s.scopeCells ++ [v] })

/-- `VNode::element`: allocates the `VElement` payload in the bump (exactly one
arena allocation, `bump.alloc_with`), with its `dom_id` cell initialized to
`RealDomNode::empty()`, and returns `VNode::Element` of the reference. -/
def VNode.element (s : Store) (key : NodeKey) (tag_name : String)
    (listeners : List Listener) (attributes : List Attribute)
    (children : List VNode) (ns : Option String) : VNode × Store :=
  let c := allocCell s RealDomNode.empty
  let element : VElement :=
    ⟨key, tag_name, listeners, attributes, children, ns, c.1⟩
  let eref := c.2.elements.length
  let s2 : Store :=
    { c.2 with elements := c.2.elements ++ [element],
               bumpAllocs := c.2.bumpAllocs + 1 }
  (VNode.Element eref, s2)

/-- `VNode::text`: wraps the string slice with a `dom_id` cell initialized to
`RealDomNode::empty()`.  The payload is held by value: no arena allocation. -/
def VNode.text (s : Store) (t : String) : VNode × Store :=
  let c := allocCell s RealDomNode.empty
  (VNode.Text ⟨t, c.1⟩, c.2)

/-- `impl Clone for VText` (derived): clones every field.  Cloning a
`Cell<RealDomNode>` (`impl<T: Copy> Clone for Cell<T>`) produces a *fresh*
cell holding a copy of the current value — the clone's cell is a new memory
location, independent of the original's. -/
def VText.clone (vt : VText) (s : Store) : VText × Store :=
  let v := (cellRead s vt.dom_id).getD RealDomNode.empty
  let c := allocCell s v
  (⟨vt.text, c.1⟩, c.2)

/-- `impl Clone for VNode`: `Element`/`Fragment`/`Component` copy the payload
reference; `Text` clones the by-value `VText`; `Suspended` has no payload. -/
def VNode.clone (n : VNode) (s : Store) : VNode × Store :=
  match n with
  | VNode.Element element => (VNode.Element element, s)
  | VNode.Text old =>
      let o := VText.clone old s
      (VNode.Text o.1, o.2)
  | VNode.Fragment fragment => (VNode.Fragment fragment, s)
  | VNode.Component component => (VNode.Component component, s)
  | VNode.Suspended => (VNode.Suspended, s)

/-- `VNode::key`: the stored key for `Element`/`Fragment`/`Component` (their
payloads are dereferenced from the arena; `none` models a dangling reference,
which cannot arise for nodes built by this layer), `NodeKey::NONE` for `Text`
and `Suspended`. -/
def VNode.key (n : VNode) (s : Store) : Option NodeKey :=
  match n with
  | VNode.Text _ => some NodeKey.NONE
  | VNode.Element e => (s.elements[e]?).map VElement.key
  | VNode.Fragment frag => (s.fragments[frag]?).map VFragment.key
  | VNode.Component c => (s.components[c]?).map VComponent.key
  | VNode.Suspended => some NodeKey.NONE

/-- Evaluate the comparator closure of `VComponent::new` against `other`,
reading props from the current store `s`:
if `caller_ref == other.user_fc`, reinterpret `other.raw_props` at type `P`
(undefined behaviour — `none` — if the pointed-to value is not actually a `P`,
or the pointer dangles) and compare the two props by value; otherwise return
`false` without touching `other`'s pointer. -/
def ComparatorClosure.run (c : ComparatorClosure) (s : Store)
    (other : VComponent) : Option Bool :=
  if c.caller_ref = other.user_fc then
    match s.props[other.raw_props]? with
    | some otherPv =>
        if otherPv.ty = c.P then
          match s.props[c.props]? with
          | some myPv => some (decide (myPv.val = otherPv.val))
          | none => none
        else none
    | none => none
  else some false

/-- `VComponent::new::<P>`: allocates the props in the bump (one arena
allocation), records the render function's address as `user_fc`, builds the
comparator closure in the bump iff `P::CAN_BE_MEMOIZED` (one further arena
allocation), builds the render-invocation shim (`Rc::new`, not an arena
allocation), and initializes `mounted_root` to `Cell::new(RealDomNode::empty())`
and `ass_scope` to `RefCell::new(None)`. -/
def VComponent.new (s : Store) (component : FC) (props : Nat)
    (key : Option String) (children : List VNode) : VComponent × Store :=
  let caller_ref := component.fcId
  let raw_props := s.props.length
  let s1 : Store :=
    { s with props := s.props ++ [⟨component.P, props⟩],
             bumpAllocs := s.bumpAllocs + 1 }
  let comp : Option ComparatorClosure × Store :=
    if component.P.CAN_BE_MEMOIZED then
      (some ⟨caller_ref, component.P, raw_props⟩,
       { s1 with bumpAllocs := s1.bumpAllocs + 1 })
    else
      (none, s1)
  let caller : CallerClosure := ⟨component, raw_props⟩
  let key' : NodeKey :=
    match key with
    | some k => NodeKey.new k
    | none => ⟨none⟩
  let mr := allocCell comp.2 RealDomNode.empty
  let asg := allocScopeCell mr.2 none
  (⟨key', mr.1, asg.1, caller, children, comp.1, raw_props, caller_ref⟩, asg.2)

/-- `VFragment::new(key, children)`: builds the payload by value.  The source
function takes no arena handle at all; the store passes through unchanged. -/
def VFragment.new (s : Store) (key : Option String)
    (children : List VNode) : VFragment × Store :=
  let key' : NodeKey :=
    match key with
    | some k => NodeKey.new k
    | none => ⟨none⟩
  (⟨key', children⟩, s)

/-- The empty store: a fresh render pass with an empty arena and no cells. -/
def Store.empty : Store := ⟨[], [], [], [], [], [], 0⟩

/-! Concrete payloads and a populated store, used to evaluate theorems with
hypotheses at concrete inputs. -/

def wElem : VElement := ⟨NodeKey.new "ek", "div", [], [], [], none, 0⟩

def wFrag : VFragment := ⟨NodeKey.new "fk", []⟩

def wCaller : CallerClosure := ⟨⟨0, ⟨0, true⟩⟩, 0⟩

def wComp : VComponent := ⟨NodeKey.new "ck", 0, 0, wCaller, [], none, 0, 0⟩

def wStore : Store :=
  ⟨[RealDomNode.empty], [none], [wElem], [wFrag], [wComp], [], 0⟩

/-! Shared helper lemmas about `VComponent.new`'s fields. -/

theorem new_user_fc (s : Store) (fc : FC) (p : Nat) (k : Option String)
    (ch : List VNode) : (VComponent.new s fc p k ch).1.user_fc = fc.fcId := rfl

theorem new_raw_props (s : Store) (fc : FC) (p : Nat) (k : Option String)
    (ch : List VNode) :
    (VComponent.new s fc p k ch).1.raw_props = s.props.length := rfl

theorem new_props (s : Store) (fc : FC) (p : Nat) (k : Option String)
    (ch : List VNode) :
    (VComponent.new s fc p k ch).2.props = s.props ++ [⟨fc.P, p⟩] := by
  cases hm : fc.P.CAN_BE_MEMOIZED <;>
    simp [VComponent.new, allocCell, allocScopeCell, hm]

theorem new_comparator_of_memo (s : Store) (fc : FC) (p : Nat)
    (k : Option String) (ch : List VNode)
    (hmem : fc.P.CAN_BE_MEMOIZED = true) :
    (VComponent.new s fc p k ch).1.comparator
      = some ⟨fc.fcId, fc.P, s.props.length⟩ := by
  simp [VComponent.new, hmem]

/-- Claim C4: `is_volatile` returns `true` exactly for the attribute names
`"value"`, `"checked"` and `"selected"`, and `false` for every other name. -/
theorem is_volatile_iff (a : Attribute) :
    a.is_volatile = true ↔
      a.name = "value" ∨ a.name = "checked" ∨ a.name = "selected" := by
  unfold Attribute.is_volatile
  split
  · next h => simp [h]
  · next h => simp [h]
  · next h => simp [h]
  · next h1 h2 h3 =>
      refine ⟨fun h => Bool.noConfusion h, ?_⟩
      rintro (h | h | h)
      · exact absurd h h1
      · exact absurd h h2
      · exact absurd h h3

/-- Witness for C4 at concrete attributes. -/
theorem is_volatile_iff_witness :
    (Attribute.mk "value" "a").is_volatile = true ∧
    (Attribute.mk "checked" "a").is_volatile = true ∧
    (Attribute.mk "selected" "a").is_volatile = true ∧
    (Attribute.mk "href" "a").is_volatile ≠ true :=
  ⟨(is_volatile_iff ⟨"value", "a"⟩).mpr (Or.inl rfl),
   (is_volatile_iff ⟨"checked", "a"⟩).mpr (Or.inr (Or.inl rfl)),
   (is_volatile_iff ⟨"selected", "a"⟩).mpr (Or.inr (Or.inr rfl)),
   fun h => by
     rcases (is_volatile_iff ⟨"href", "a"⟩).mp h with h' | h' | h' <;>
       simp at h'⟩

/-- Claim C10: `NodeKey::new` always yields a key that `is_some` (and is not
`is_none`), for every string including the empty one, and `NodeKey::default()`
is the `NONE` sentinel. -/
theorem nodekey_new_some_default_none :
    (∀ s : String, (NodeKey.new s).is_some = true ∧ (NodeKey.new s).is_none = false) ∧
    NodeKey.default = NodeKey.NONE := by
  refine ⟨fun s => ⟨?_, ?_⟩, rfl⟩ <;>
    simp [NodeKey.is_some, NodeKey.is_none, NodeKey.new, NodeKey.NONE]

/-- Claim C5: `key()` returns the payload's stored key for `Element`,
`Fragment` and `Component`, and the `NodeKey::NONE` sentinel for `Text` and
`Suspended`. -/
theorem vnode_key_spec (s : Store) :
    (∀ vt : VText, VNode.key (VNode.Text vt) s = some NodeKey.NONE) ∧
    VNode.key VNode.Suspended s = some NodeKey.NONE ∧
    (∀ e el, s.elements[e]? = some el →
      VNode.key (VNode.Element e) s = some el.key) ∧
    (∀ f fr, s.fragments[f]? = some fr →
      VNode.key (VNode.Fragment f) s = some fr.key) ∧
    (∀ c co, s.components[c]? = some co →
      VNode.key (VNode.Component c) s = some co.key) := by
  refine ⟨fun vt => rfl, rfl, ?_, ?_, ?_⟩ <;>
    · intro i p h
      simp [VNode.key, h]

/-- Witness for C5 on a populated concrete store. -/
theorem vnode_key_spec_witness :
    VNode.key (VNode.Element 0) wStore = some (NodeKey.new "ek") ∧
    VNode.key (VNode.Fragment 0) wStore = some (NodeKey.new "fk") ∧
    VNode.key (VNode.Component 0) wStore = some (NodeKey.new "ck") ∧
    VNode.key (VNode.Text ⟨"t", 0⟩) wStore = some NodeKey.NONE ∧
    VNode.key VNode.Suspended wStore = some NodeKey.NONE :=
  ⟨(vnode_key_spec wStore).2.2.1 0 wElem rfl,
   (vnode_key_spec wStore).2.2.2.1 0 wFrag rfl,
   (vnode_key_spec wStore).2.2.2.2 0 wComp rfl,
   (vnode_key_spec wStore).1 ⟨"t", 0⟩,
   (vnode_key_spec wStore).2.1⟩

/-- Counterexample to claim C9 as stated: `VFragment::new` performs *no* arena
allocation (it does not even receive an arena handle and returns the payload
by value), so constructing a Fragment payload does not perform exactly one
arena allocation. -/
theorem fragment_new_no_alloc_cex :
    (VFragment.new Store.empty (some "list-1") []).2.bumpAllocs = 0 ∧
    ¬ (VFragment.new Store.empty (some "list-1") []).2.bumpAllocs
        = Store.empty.bumpAllocs + 1 := by
  exact ⟨rfl, by decide⟩

/-- Claim C9 (amended): constructing an Element performs exactly one arena
allocation; constructing a Text performs none; `VFragment::new` performs none
and leaves the store entirely unchanged (the payload is returned by value;
its arena placement is done by callers outside this file).  `Suspended` is a
payload-free variant with no constructor and allocates nothing. -/
theorem arena_alloc_counts (s : Store) (k : NodeKey) (tag t : String)
    (ls : List Listener) (ats : List Attribute) (ch : List VNode)
    (ns : Option String) (ok : Option String) :
    (VNode.element s k tag ls ats ch ns).2.bumpAllocs = s.bumpAllocs + 1 ∧
    (VNode.text s t).2.bumpAllocs = s.bumpAllocs ∧
    (VFragment.new s ok ch).2 = s :=
  ⟨rfl, rfl, rfl⟩

/-- Counterexample to claim C3 as stated: for the Text node built from
`"hi"` on the empty store (its `dom_id` cell is address 0), the derived
clone holds a *fresh* cell (address 1) — `Cell<T>: Clone` copies the value
into a new cell — so writing a handle through the clone's cell is not
observable through the original's cell, which still reads back empty. -/
theorem text_clone_cell_not_shared_cex :
    (VNode.text Store.empty "hi").1 = VNode.Text ⟨"hi", 0⟩ ∧
    (VNode.clone (VNode.text Store.empty "hi").1
        (VNode.text Store.empty "hi").2).1 = VNode.Text ⟨"hi", 1⟩ ∧
    cellRead
      (cellWrite
        (VNode.clone (VNode.text Store.empty "hi").1
          (VNode.text Store.empty "hi").2).2
        1 (RealDomNode.node 7)) 0 = some RealDomNode.empty ∧
    ¬ cellRead
        (cellWrite
          (VNode.clone (VNode.text Store.empty "hi").1
            (VNode.text Store.empty "hi").2).2
          1 (RealDomNode.node 7)) 0 = some (RealDomNode.node 7) := by
  refine ⟨rfl, rfl, rfl, ?_⟩
  decide

/-- Claim C3 (amended): cloning a `VText` copies the string slice and the
*current value* of the `dom_id` cell into a fresh, independent cell; the two
cells are distinct, and a write performed through the clone's cell is not
observable through the original's cell (which keeps its prior value). -/
theorem text_clone_fresh_cell (s : Store) (vt : VText)
    (h : vt.dom_id < s.cells.length) :
    (VText.clone vt s).1.text = vt.text ∧
    (VText.clone vt s).1.dom_id = s.cells.length ∧
    ¬ (VText.clone vt s).1.dom_id = vt.dom_id ∧
    cellRead (VText.clone vt s).2 (VText.clone vt s).1.dom_id
      = cellRead s vt.dom_id ∧
    (∀ v, cellRead
        (cellWrite (VText.clone vt s).2 (VText.clone vt s).1.dom_id v)
        vt.dom_id = cellRead s vt.dom_id) := by
  refine ⟨rfl, rfl, fun he => absurd (he ▸ h) (Nat.lt_irrefl _), ?_, ?_⟩
  · show cellRead ⟨s.cells ++ [_], _, _, _, _, _, _⟩ s.cells.length = _
    rw [cellRead, cellRead]
    show (s.cells ++ [(s.cells[vt.dom_id]?).getD RealDomNode.empty])[s.cells.length]? = _
    rw [List.getElem?_concat_length, List.getElem?_eq_getElem h]
    rfl
  · intro v
    show cellRead
        ⟨(s.cells ++ [(s.cells[vt.dom_id]?).getD RealDomNode.empty]).set
            s.cells.length v, _, _, _, _, _, _⟩ vt.dom_id = _
    rw [cellRead, cellRead]
    show ((s.cells ++ [_]).set s.cells.length v)[vt.dom_id]? = s.cells[vt.dom_id]?
    rw [List.getElem?_set_ne (Nat.ne_of_gt h)]
    exact List.getElem?_append_left h

/-- Witness for C3 (amended) on a concrete one-cell store. -/
theorem text_clone_fresh_cell_witness :
    (VText.clone ⟨"hi", 0⟩ (VNode.text Store.empty "hi").2).1.dom_id = 1 ∧
    cellRead
      (cellWrite (VText.clone ⟨"hi", 0⟩ (VNode.text Store.empty "hi").2).2 1
        (RealDomNode.node 7)) 0 = some RealDomNode.empty :=
  ⟨(text_clone_fresh_cell (VNode.text Store.empty "hi").2 ⟨"hi", 0⟩
      (by decide)).2.1,
   ((text_clone_fresh_cell (VNode.text Store.empty "hi").2 ⟨"hi", 0⟩
      (by decide)).2.2.2.2 (RealDomNode.node 7)).trans rfl⟩

/-- Claim C6: cloning an `Element`, `Fragment` or `Component` node copies the
payload reference itself (same arena memory, store untouched), so the clone
dereferences to the very same payload, and a handle written into that
payload's cell is read back through it. -/
theorem clone_shares_payload (s : Store) (r : Nat) :
    VNode.clone (VNode.Element r) s = (VNode.Element r, s) ∧
    VNode.clone (VNode.Fragment r) s = (VNode.Fragment r, s) ∧
    VNode.clone (VNode.Component r) s = (VNode.Component r, s) ∧
    (∀ el v, s.elements[r]? = some el → el.dom_id < s.cells.length →
      (VNode.clone (VNode.Element r) s).2.elements[r]? = some el ∧
      cellRead (cellWrite (VNode.clone (VNode.Element r) s).2 el.dom_id v)
        el.dom_id = some v) ∧
    (∀ co v, s.components[r]? = some co → co.mounted_root < s.cells.length →
      (VNode.clone (VNode.Component r) s).2.components[r]? = some co ∧
      cellRead
        (cellWrite (VNode.clone (VNode.Component r) s).2 co.mounted_root v)
        co.mounted_root = some v) := by
  refine ⟨rfl, rfl, rfl, ?_, ?_⟩
  · intro el v hel hlt
    exact ⟨hel, List.getElem?_set_eq_of_lt v hlt⟩
  · intro co v hco hlt
    exact ⟨hco, List.getElem?_set_eq_of_lt v hlt⟩

/-- Witness for C6 on the populated concrete store. -/
theorem clone_shares_payload_witness :
    VNode.clone (VNode.Element 0) wStore = (VNode.Element 0, wStore) ∧
    (VNode.clone (VNode.Element 0) wStore).2.elements[0]? = some wElem ∧
    cellRead
      (cellWrite (VNode.clone (VNode.Element 0) wStore).2 wElem.dom_id
        (RealDomNode.node 3)) wElem.dom_id = some (RealDomNode.node 3) ∧
    cellRead
      (cellWrite (VNode.clone (VNode.Component 0) wStore).2 wComp.mounted_root
        (RealDomNode.node 4)) wComp.mounted_root = some (RealDomNode.node 4) :=
  ⟨(clone_shares_payload wStore 0).1,
   ((clone_shares_payload wStore 0).2.2.2.1 wElem (RealDomNode.node 3) rfl
      (by decide)).1,
   ((clone_shares_payload wStore 0).2.2.2.1 wElem (RealDomNode.node 3) rfl
      (by decide)).2,
   ((clone_shares_payload wStore 0).2.2.2.2 wComp (RealDomNode.node 4) rfl
      (by decide)).2⟩

/-- Claim C7: every constructor initializes its mutable cells empty —
`element` and `text` append exactly one `RealDomNode` cell holding
`RealDomNode::empty()` (and the payload's `dom_id` is that fresh cell);
`VComponent::new` appends one cell holding `empty` for `mounted_root` and one
scope cell holding `None` for `ass_scope`; `VFragment::new` touches nothing;
and no operation of the layer (`clone` included) ever writes a
previously-existing cell. -/
theorem constructors_init_cells_empty (s : Store) (k : NodeKey)
    (tag t : String) (ls : List Listener) (ats : List Attribute)
    (ch : List VNode) (ns : Option String) (fc : FC) (p : Nat)
    (ok : Option String) :
    (VNode.element s k tag ls ats ch ns).1 = VNode.Element s.elements.length ∧
    (VNode.element s k tag ls ats ch ns).2.cells
      = s.cells ++ [RealDomNode.empty] ∧
    (VNode.element s k tag ls ats ch ns).2.scopeCells = s.scopeCells ∧
    (VNode.element s k tag ls ats ch ns).2.elements
      = s.elements ++ [⟨k, tag, ls, ats, ch, ns, s.cells.length⟩] ∧
    (VNode.text s t).1 = VNode.Text ⟨t, s.cells.length⟩ ∧
    (VNode.text s t).2.cells = s.cells ++ [RealDomNode.empty] ∧
    (VNode.text s t).2.scopeCells = s.scopeCells ∧
    (VComponent.new s fc p ok ch).2.cells = s.cells ++ [RealDomNode.empty] ∧
    (VComponent.new s fc p ok ch).2.scopeCells = s.scopeCells ++ [none] ∧
    (VComponent.new s fc p ok ch).1.mounted_root = s.cells.length ∧
    (VComponent.new s fc p ok ch).1.ass_scope = s.scopeCells.length ∧
    (VFragment.new s ok ch).2 = s ∧
    (∀ n i, i < s.cells.length →
      (VNode.clone n s).2.cells[i]? = s.cells[i]?) ∧
    (∀ n, (VNode.clone n s).2.scopeCells = s.scopeCells) := by
  refine ⟨rfl, ?_, ?_, ?_, rfl, rfl, rfl, ?_, ?_, ?_, ?_, rfl, ?_, ?_⟩
  · rfl
  · rfl
  · rfl
  · cases hm : fc.P.CAN_BE_MEMOIZED <;>
      simp [VComponent.new, allocCell, allocScopeCell, hm]
  · cases hm : fc.P.CAN_BE_MEMOIZED <;>
      simp [VComponent.new, allocCell, allocScopeCell, hm]
  · cases hm : fc.P.CAN_BE_MEMOIZED <;>
      simp [VComponent.new, allocCell, allocScopeCell, hm]
  · cases hm : fc.P.CAN_BE_MEMOIZED <;>
      simp [VComponent.new, allocCell, allocScopeCell, hm]
  · intro n i hi
    cases n with
    | Text vt => exact List.getElem?_append_left hi
    | Element e => rfl
    | Fragment f => rfl
    | Component c => rfl
    | Suspended => rfl
  · intro n
    cases n <;> rfl

/-- Witness for C7 at concrete inputs (the clone-preservation conjunct is
applied on the one-cell store `wStore`). -/
theorem constructors_init_cells_empty_witness :
    (VNode.text wStore "x").2.cells
      = [RealDomNode.empty, RealDomNode.empty] ∧
    (VComponent.new wStore ⟨1, ⟨10, true⟩⟩ 5 none []).1.mounted_root = 1 ∧
    (VNode.clone (VNode.Text ⟨"x", 0⟩) wStore).2.cells[0]?
      = some RealDomNode.empty :=
  ⟨(constructors_init_cells_empty wStore NodeKey.NONE "div" "x" [] [] [] none
      ⟨1, ⟨10, true⟩⟩ 5 none).2.2.2.2.2.1,
   (constructors_init_cells_empty wStore NodeKey.NONE "div" "x" [] [] [] none
      ⟨1, ⟨10, true⟩⟩ 5 none).2.2.2.2.2.2.2.2.2.1,
   ((constructors_init_cells_empty wStore NodeKey.NONE "div" "x" [] [] [] none
      ⟨1, ⟨10, true⟩⟩ 5 none).2.2.2.2.2.2.2.2.2.2.2.2.1
      (VNode.Text ⟨"x", 0⟩) 0 (by decide)).trans rfl⟩

/-- Claim C8: `VComponent::new` stores a comparator exactly when the props
type opts into memoization (`P::CAN_BE_MEMOIZED`); when it opts out no
comparator closure is built at all — the arena sees one allocation (the
props) instead of two (props plus comparator closure). -/
theorem comparator_iff_memoizable (s : Store) (fc : FC) (p : Nat)
    (k : Option String) (ch : List VNode) :
    ((VComponent.new s fc p k ch).1.comparator).isSome
        = fc.P.CAN_BE_MEMOIZED ∧
    (VComponent.new s fc p k ch).2.bumpAllocs
        = s.bumpAllocs + (if fc.P.CAN_BE_MEMOIZED then 2 else 1) := by
  cases hm : fc.P.CAN_BE_MEMOIZED <;>
    simp [VComponent.new, allocCell, allocScopeCell, hm]

/-- Claim C1: the comparator of a Component built from render function `fc1`
(whose props type is memoizable), applied to any Component built from a
render function with a different address, returns `false` unconditionally.
The result is `some false` for *every* props store `t`, so the run is defined
(`none` would model the UB of reinterpreting the erased pointer) and never
reads the other component's erased props pointer. -/
theorem comparator_diff_fc_false (s s' : Store) (fc1 fc2 : FC)
    (p1 p2 : Nat) (k1 k2 : Option String) (ch1 ch2 : List VNode)
    (hmem : fc1.P.CAN_BE_MEMOIZED = true) (hne : ¬ fc1.fcId = fc2.fcId) :
    (VComponent.new s fc1 p1 k1 ch1).1.comparator
        = some ⟨fc1.fcId, fc1.P, s.props.length⟩ ∧
    (∀ t : Store, ComparatorClosure.run ⟨fc1.fcId, fc1.P, s.props.length⟩ t
        (VComponent.new s' fc2 p2 k2 ch2).1 = some false) := by
  refine ⟨new_comparator_of_memo s fc1 p1 k1 ch1 hmem, fun t => ?_⟩
  rw [ComparatorClosure.run, new_user_fc]
  exact if_neg hne

/-- Witness for C1: two concrete components from distinct render functions
(addresses 1 and 2) over the same memoizable props type. -/
theorem comparator_diff_fc_false_witness :
    (VComponent.new Store.empty ⟨1, ⟨10, true⟩⟩ 5 none []).1.comparator
        = some ⟨1, ⟨10, true⟩, 0⟩ ∧
    ComparatorClosure.run ⟨1, ⟨10, true⟩, 0⟩ Store.empty
        (VComponent.new Store.empty ⟨2, ⟨10, true⟩⟩ 5 none []).1
        = some false :=
  ⟨(comparator_diff_fc_false Store.empty Store.empty ⟨1, ⟨10, true⟩⟩
      ⟨2, ⟨10, true⟩⟩ 5 5 none none [] [] rfl (by decide)).1,
   (comparator_diff_fc_false Store.empty Store.empty ⟨1, ⟨10, true⟩⟩
      ⟨2, ⟨10, true⟩⟩ 5 5 none none [] [] rfl (by decide)).2 Store.empty⟩

/-- Claim C2: for two Components built in sequence from the *same* render
function (memoizable props), the first one's comparator applied to the second
returns exactly the value-equality verdict of the two props: `some true` when
they compare equal, `some false` when they differ — and in particular the
erased-pointer reinterpretation is defined (never `none`). -/
theorem comparator_same_fc_value_eq (s : Store) (fc : FC) (p1 p2 : Nat)
    (k1 k2 : Option String) (ch1 ch2 : List VNode)
    (hmem : fc.P.CAN_BE_MEMOIZED = true) :
    (VComponent.new s fc p1 k1 ch1).1.comparator
        = some ⟨fc.fcId, fc.P, s.props.length⟩ ∧
    ComparatorClosure.run ⟨fc.fcId, fc.P, s.props.length⟩
      (VComponent.new (VComponent.new s fc p1 k1 ch1).2 fc p2 k2 ch2).2
      (VComponent.new (VComponent.new s fc p1 k1 ch1).2 fc p2 k2 ch2).1
      = some (decide (p1 = p2)) := by
  refine ⟨new_comparator_of_memo s fc p1 k1 ch1 hmem, ?_⟩
  have h1 : (VComponent.new s fc p1 k1 ch1).2.props
      = s.props ++ [⟨fc.P, p1⟩] := new_props s fc p1 k1 ch1
  have h2 : (VComponent.new (VComponent.new s fc p1 k1 ch1).2 fc p2 k2 ch2).2.props
      = (s.props ++ [⟨fc.P, p1⟩]) ++ [⟨fc.P, p2⟩] := by
    rw [new_props, h1]
  have hrp : (VComponent.new (VComponent.new s fc p1 k1 ch1).2 fc p2 k2 ch2).1.raw_props
      = s.props.length + 1 := by
    rw [new_raw_props, h1, List.length_append, List.length_singleton]
  rw [ComparatorClosure.run, new_user_fc, if_pos rfl, hrp, h2]
  have hlook2 : ((s.props ++ [⟨fc.P, p1⟩]) ++ [(⟨fc.P, p2⟩ : PropVal)])[s.props.length + 1]?
      = some ⟨fc.P, p2⟩ := by
    have : s.props.length + 1 = (s.props ++ [(⟨fc.P, p1⟩ : PropVal)]).length := by
      rw [List.length_append, List.length_singleton]
    rw [this, List.getElem?_concat_length]
  rw [hlook2]
  have hlook1 : ((s.props ++ [(⟨fc.P, p1⟩ : PropVal)]) ++ [⟨fc.P, p2⟩])[s.props.length]?
      = some ⟨fc.P, p1⟩ := by
    rw [List.getElem?_append_left (by simp), List.getElem?_concat_length]
  simp only [if_pos rfl, hlook1]
  exact if_pos trivial

/-- Witness for C2: same render function (address 1), once with equal props
(5 and 5, verdict `true`) and once with unequal props (5 and 6, verdict
`false`). -/
theorem comparator_same_fc_value_eq_witness :
    ComparatorClosure.run ⟨1, ⟨10, true⟩, 0⟩
      (VComponent.new (VComponent.new Store.empty ⟨1, ⟨10, true⟩⟩ 5 none []).2
        ⟨1, ⟨10, true⟩⟩ 5 none []).2
      (VComponent.new (VComponent.new Store.empty ⟨1, ⟨10, true⟩⟩ 5 none []).2
        ⟨1, ⟨10, true⟩⟩ 5 none []).1 = some true ∧
    ComparatorClosure.run ⟨1, ⟨10, true⟩, 0⟩
      (VComponent.new (VComponent.new Store.empty ⟨1, ⟨10, true⟩⟩ 5 none []).2
        ⟨1, ⟨10, true⟩⟩ 6 none []).2
      (VComponent.new (VComponent.new Store.empty ⟨1, ⟨10, true⟩⟩ 5 none []).2
        ⟨1, ⟨10, true⟩⟩ 6 none []).1 = some false :=
  ⟨((comparator_same_fc_value_eq Store.empty ⟨1, ⟨10, true⟩⟩ 5 5 none none
      [] [] rfl).2).trans (by decide),
   ((comparator_same_fc_value_eq Store.empty ⟨1, ⟨10, true⟩⟩ 5 6 none none
      [] [] rfl).2).trans (by decide)⟩

end DioxusNodes
